import Mathlib

set_option maxRecDepth 8000

namespace Telemind

/-! Shallow embedding of the session and intent-routing engine of
roso1102/telemind (src/main.py), together with the PDF extraction loop
(src/main.py, src/test_pymupdf.py).  Machine time is modelled as natural
seconds, the completion provider and the durable document store are
modelled as explicit parameters. -/

/-- Python ASCII `str.lower`, as applied by the bot before phrase matching. -/
def pyLower (s : List Char) : List Char := s.map Char.toLower

/-- Does `l` begin with `p`?  Models Python `str.startswith` and anchors substring scans. -/
def beginsWith : List Char → List Char → Bool
  | _, [] => true
  | [], _ :: _ => false
  | c :: cs, p :: ps => c == p && beginsWith cs ps

/-- Python `p in l` on strings: `p` occurs contiguously in `l`. -/
def pyIn (p : List Char) : List Char → Bool
  | [] => beginsWith [] p
  | c :: cs => beginsWith (c :: cs) p || pyIn p cs

/-- Python `str.find`: index of the first occurrence of `p` in `l`, if any. -/
def pyFind (p : List Char) : List Char → Option Nat
  | [] => if beginsWith [] p then some 0 else none
  | c :: cs =>
    if beginsWith (c :: cs) p then some 0
    else (pyFind p cs).map (· + 1)

/-- Python `str.strip` with default whitespace. -/
def stripWs (l : List Char) : List Char :=
  ((l.dropWhile Char.isWhitespace).reverse.dropWhile Char.isWhitespace).reverse

/-- Models `text.split()[0]`: the first maximal run of non-whitespace characters. -/
def firstToken (l : List Char) : List Char :=
  (l.dropWhile Char.isWhitespace).takeWhile (fun c => !c.isWhitespace)

/-- Match exactly `n` ASCII digits, returning the remaining characters. -/
def matchNDigits : Nat → List Char → Option (List Char)
  | 0, s => some s
  | _ + 1, [] => none
  | n + 1, c :: r => if c.isDigit then matchNDigits n r else none

/-- Regex alternative consisting of a fixed literal word. -/
def litAlt (w : String) (s : List Char) : Option Nat :=
  if beginsWith s w.toList then some w.length else none

/-- Regex alternative `\d{1,2}<sep>\d{1,2}` with the greedy backtracking order of `re`. -/
def numSepAlt (sep : Char) (s : List Char) : Option Nat :=
  let attempt := fun (n1 n2 : Nat) =>
    match matchNDigits n1 s with
    | some (c :: r) => if c == sep then (matchNDigits n2 r).map (fun _ => n1 + 1 + n2) else none
    | _ => none
  [attempt 2 2, attempt 2 1, attempt 1 2, attempt 1 1].findSome? id

/-- Regex alternative `\d{1,2}:\d{2}` with the greedy backtracking order of `re`. -/
def clockAlt (s : List Char) : Option Nat :=
  let attempt := fun (n1 : Nat) =>
    match matchNDigits n1 s with
    | some (c :: r) => if c == ':' then (matchNDigits 2 r).map (fun _ => n1 + 3) else none
    | _ => none
  [attempt 2, attempt 1].findSome? id

/-- Regex alternative `\d{1,2} (am|pm)`: digits, a single space, then am or pm. -/
def amPmAlt (s : List Char) : Option Nat :=
  let attempt := fun (n1 : Nat) =>
    match matchNDigits n1 s with
    | some (c :: r) =>
      if c == ' ' then
        if beginsWith r ['a', 'm'] then some (n1 + 3)
        else if beginsWith r ['p', 'm'] then some (n1 + 3)
        else none
      else none
    | _ => none
  [attempt 2, attempt 1].findSome? id

/-- `re.search` over an ordered alternation: the leftmost matching position wins,
and at that position the first alternative in pattern order wins. -/
def reSearch (alts : List (List Char → Option Nat)) : List Char → Option (List Char)
  | [] =>
    match alts.findSome? (fun a => a []) with
    | some n => some (List.take n [])
    | none => none
  | c :: rest =>
    match alts.findSome? (fun a => a (c :: rest)) with
    | some n => some ((c :: rest).take n)
    | none => reSearch alts rest

/-- Date alternation of `extract_task_info` (src/main.py line 749), in pattern order. -/
def dateAlts : List (List Char → Option Nat) :=
  [litAlt "today", litAlt "tomorrow", litAlt "monday", litAlt "tuesday", litAlt "wednesday",
   litAlt "thursday", litAlt "friday", litAlt "saturday", litAlt "sunday",
   numSepAlt '/', numSepAlt '-']

/-- Time alternation of `extract_task_info` (src/main.py line 753). -/
def timeAlts : List (List Char → Option Nat) := [clockAlt, amPmAlt]

/-- Conversation message (src/main.py class `Message`). -/
structure Message where
  role : String
  content : String
  timestamp : Nat
  deriving DecidableEq

/-- In-memory session state (src/main.py class `UserSession`). -/
structure UserSession where
  user_id : String
  messages : List Message
  last_interaction : Nat
  context_window : Nat
  deriving DecidableEq

/-- `UserSession.__init__` (src/main.py lines 169-173): empty buffer, window cap 10. -/
def UserSession.init (uid : String) (now : Nat) : UserSession :=
  ⟨uid, [], now, 10⟩

/-- The in-memory `user_sessions` dict, keyed by user id. -/
abbrev SessionMap := List (String × UserSession)

/-- Python dict lookup on a keyed association list. -/
def dictLookup {α : Type} : List (String × α) → String → Option α
  | [], _ => none
  | (k, v) :: r, u => if k = u then some v else dictLookup r u

/-- Python dict assignment: replace the binding if present, else append it. -/
def dictInsert {α : Type} : List (String × α) → String → α → List (String × α)
  | [], k, v => [(k, v)]
  | (k0, v0) :: r, k, v => if k0 = k then (k, v) :: r else (k0, v0) :: dictInsert r k v

/-- Message as sent to the completion provider: role and content only
(timestamps are excluded from the wire payload, src/main.py line 689). -/
structure ChatMsg where
  role : String
  content : String
  deriving DecidableEq

/-- System prompt prepended to every completion request (src/main.py lines 692-695). -/
def system_prompt : String :=
  "You are TeleMind, a helpful personal assistant on Telegram.\nYou help users manage tasks, take notes, and handle files.\nBe friendly and concise in your responses.\nYour goal is to help users organize their lives and provide useful information."

/-- Fixed apology returned when the completion call raises (src/main.py line 719). -/
def apologyText : String :=
  "I apologize, but I encountered an issue processing your request. Please try again."

/-- Python `l[-n:]`, the sliding-window slice. -/
def lastN {α : Type} (n : Nat) (l : List α) : List α := l.drop (l.length - n)

/-- Buffer state after the user-message append and the context-window check
(src/main.py lines 680-686): truncation applies here and only here. -/
def truncAfterUser (s : UserSession) (text : String) (now : Nat) : List Message :=
  let msgs := s.messages ++ [⟨"user", text, now⟩]
  if msgs.length > s.context_window then lastN s.context_window msgs else msgs

/-- The request sent to the completion provider (src/main.py lines 688-697). -/
def wireMessages (s : UserSession) (text : String) (now : Nat) : List ChatMsg :=
  ⟨"system", system_prompt⟩ :: (truncAfterUser s text now).map (fun m => ⟨m.role, m.content⟩)

/-- One respond turn on a single session (src/main.py lines 677-719).  The
completion provider is an oracle that returns `none` when the API call raises;
on success the reply is appended with no further truncation, on failure the
already-appended user message stays and the fixed apology is returned. -/
def respondStep (llm : List ChatMsg → Option String) (s : UserSession) (text : String)
    (now : Nat) : UserSession × String :=
  let msgs2 := truncAfterUser s text now
  match llm (wireMessages s text now) with
  | some reply =>
    ({ s with messages := msgs2 ++ [⟨"assistant", reply, now⟩], last_interaction := now }, reply)
  | none => ({ s with messages := msgs2, last_interaction := now }, apologyText)

/-- Session selection of `process_conversation` (src/main.py lines 673-677):
the stored session when present, else a freshly constructed one. -/
def sessionFor (sessions : SessionMap) (user_id : String) (now : Nat) : UserSession :=
  (dictLookup sessions user_id).getD (UserSession.init user_id now)

/-- `process_conversation` (src/main.py lines 671-719): get or create the
session, run one respond turn, store the mutated session back in the map. -/
def process_conversation (llm : List ChatMsg → Option String) (sessions : SessionMap)
    (user_id : String) (new_message : String) (now : Nat) : SessionMap × String :=
  let s := sessionFor sessions user_id now
  match respondStep llm s new_message now with
  | (s2, reply) => (dictInsert sessions user_id s2, reply)

/-- A sequence of respond turns by one user, all at clock value `now`. -/
def runTurns (llm : List ChatMsg → Option String) (sessions : SessionMap) (uid : String)
    (texts : List String) (now : Nat) : SessionMap :=
  texts.foldl (fun ss t => (process_conversation llm ss uid t now).1) sessions

/-- A completion provider that always succeeds with a fixed reply. -/
def llmConst (r : String) : List ChatMsg → Option String := fun _ => some r

/-- A completion provider whose call always raises. -/
def llmFail : List ChatMsg → Option String := fun _ => none

/-- Task-trigger phrases (src/main.py lines 727 and 745). -/
def taskTriggerPhrases : List String :=
  ["remind me to", "add task", "create task", "remember to", "don\x27t forget to"]

/-- Note-trigger phrases (src/main.py line 731). -/
def noteTriggerPhrases : List String :=
  ["save note", "save this", "take note", "note this", "remember this", "remember that"]

/-- `analyze_intent` (src/main.py lines 721-735): rule-based intent detection on the
lowercased text, task phrases checked first, default `general_chat`. -/
def analyze_intent (text : String) : String :=
  let text_lower := pyLower text.toList
  if taskTriggerPhrases.any (fun p => pyIn p.toList text_lower) then "task_create"
  else if noteTriggerPhrases.any (fun p => pyIn p.toList text_lower) then "note_create"
  else "general_chat"

/-- Result of `extract_task_info`.  The rejecting dict `{is_task: False}` of the
source carries no other keys; it is modelled with empty defaults. -/
structure TaskInfo where
  is_task : Bool
  task : String
  due_date : Option String
  due_time : Option String
  priority : String
  deriving DecidableEq

/-- Trigger phrases stripped from the task description, in loop order
(src/main.py line 758). -/
def taskStripMarkers : List String :=
  ["remind me to", "add task:", "add task", "create task:", "create task",
   "remember to", "don\x27t forget to"]

/-- The first marker contained in the lowercased text, with its position
(`text_lower.find(marker)`), modelling the for-break loop of lines 758-761. -/
def findFirstMarker (text_lower : List Char) : Option (Nat × Nat) :=
  taskStripMarkers.findSome? (fun m =>
    (pyFind m.toList text_lower).map (fun i => (i, m.length)))

/-- `extract_task_info` (src/main.py lines 737-769): trigger check, one regex scan
for a date token, one for a time token, and prefix-stripping of the description. -/
def extract_task_info (text : String) : TaskInfo :=
  let chars := text.toList
  let text_lower := pyLower chars
  if !(taskTriggerPhrases.any (fun p => pyIn p.toList text_lower)) then
    ⟨false, "", none, none, ""⟩
  else
    let date := (reSearch dateAlts text_lower).map (fun l => String.mk l)
    let time := (reSearch timeAlts text_lower).map (fun l => String.mk l)
    let task :=
      match findFirstMarker text_lower with
      | some (i, n) => String.mk (stripWs (chars.drop (i + n)))
      | none => text
    ⟨true, task, date, time, "medium"⟩

/-- A note (src/main.py lines 480-483). -/
structure Note where
  content : String
  timestamp : Nat
  deriving DecidableEq

/-- A task record (src/main.py lines 456-463). -/
structure Task where
  task : String
  due_date : Option String
  due_time : Option String
  priority : String
  completed : Bool
  created_at : Nat
  deriving DecidableEq

/-- File metadata stored by `store_file` (src/main.py lines 251-258); the `/files`
command reads `name`, `type` and `url`. -/
structure FileRef where
  name : String
  ftype : String
  url : String
  path : String
  storage_type : String
  uploaded_at : Nat
  deriving DecidableEq

/-- Durable per-user Firestore document (src/main.py lines 186-192). -/
structure UserRecord where
  notes : List Note
  tasks : List Task
  files : List FileRef
  conversation : List Message
  created_at : Nat
  deriving DecidableEq

/-- The `users` collection, keyed by user id. -/
abbrev Store := List (String × UserRecord)

/-- The default document written on first access (src/main.py lines 186-192). -/
def defaultUserData (now : Nat) : UserRecord :=
  ⟨[], [], [], [], now⟩

/-- `get_user_data` (src/main.py lines 179-195): read the document, lazily
creating and persisting the default one when it does not exist. -/
def get_user_data (store : Store) (user_id : String) (now : Nat) : UserRecord × Store :=
  match dictLookup store user_id with
  | some d => (d, store)
  | none => (defaultUserData now, dictInsert store user_id (defaultUserData now))

/-- Firestore `ArrayUnion`: appends the value only when it is not already present. -/
def arrayUnion {α : Type} [DecidableEq α] (arr : List α) (v : α) : List α :=
  if v ∈ arr then arr else arr ++ [v]

/-- `add_to_user_array` (src/main.py lines 203-214): `doc_ref.update` with an
`ArrayUnion`; the update raises (modelled as `none`) when the document is
missing, and the field selection is passed as the record updater. -/
def add_to_user_array (store : Store) (user_id : String)
    (applyUnion : UserRecord → UserRecord) : Option Store :=
  match dictLookup store user_id with
  | none => none
  | some r => some (dictInsert store user_id (applyUnion r))

/-- Reply of `/start` (src/main.py line 359). -/
def startText : String :=
  "üëã Hello! I\x27m your personal assistant. I can help you with tasks, notes, and files. How can I assist you today?"

/-- Reply of `/help` (src/main.py lines 363-382). -/
def helpText : String :=
  "\nI can help you with:\n\n*Task Management*\n- \"Remind me to pay rent on Friday\"\n- \"Add task: buy groceries tomorrow\"\n- \"Show my tasks\"\n\n*Notes & Information*\n- \"Remember my wifi password is 12345678\"\n- \"Save this note: [your note]\"\n- \"What was my wifi password?\"\n\n*File Management*\n- Send me any PDF, image, or document\n- \"What did that PDF about marketing say?\"\n- \"Find information about pancreatic cells\"\n\nJust chat naturally with me!\n"

/-- Empty-state reply of `/tasks` (src/main.py line 392). -/
def emptyTasksText : String := "üì≠ You don\x27t have any tasks yet."

/-- Header of the `/tasks` listing (src/main.py line 394). -/
def tasksHeader : String := "üìã *Your Tasks*:\n\n"

/-- Status marker of a completed task (src/main.py line 396). -/
def statusDone : String := "‚úÖ"

/-- Status marker of a pending task (src/main.py line 396). -/
def statusPending : String := "‚è≥"

/-- Empty-state reply of `/notes` (src/main.py line 415). -/
def emptyNotesText : String := "üì≠ You don\x27t have any notes yet."

/-- Header of the `/notes` listing (src/main.py line 417). -/
def notesHeader : String := "üìù *Your Notes*:\n\n"

/-- Empty-state reply of `/files` (src/main.py line 432). -/
def emptyFilesText : String := "üì≠ You don\x27t have any files yet."

/-- Header of the `/files` listing (src/main.py line 434). -/
def filesHeader : String := "üóÇ *Your Files*:\n\n"

/-- Emoji markers of the `/files` listing (src/main.py line 436). -/
def docEmoji : String := "üìÑ"

/-- Emoji marker of an image file (src/main.py line 436). -/
def imgEmoji : String := "üñº"

/-- Emoji marker of any other file (src/main.py line 436). -/
def otherFileEmoji : String := "üìÅ"

/-- Check marker of the task-added reply (src/main.py line 474). -/
def checkEmoji : String := "‚úÖ"

/-- Reply after a note is stored (src/main.py line 486). -/
def noteSavedText : String := "üìù Note saved!"

/-- Reply sent by the outer catch-all of the webhook handler (src/main.py line 611). -/
def unexpectedErrorText : String := "Sorry, I encountered an unexpected error. Please try again."

/-- Gregorian date of a day count since 1970-01-01 (standard civil-from-days
computation).  The source formats note dates with `datetime.fromtimestamp`,
which uses the local timezone of the host; the model fixes UTC. -/
def civilFromDays (z0 : Nat) : Nat × Nat × Nat :=
  let z := z0 + 719468
  let era := z / 146097
  let doe := z % 146097
  let yoe := (doe - doe / 1460 + doe / 36524 - doe / 146096) / 365
  let y := yoe + era * 400
  let doy := doe - (365 * yoe + yoe / 4 - yoe / 100)
  let mp := (5 * doy + 2) / 153
  let d := doy - (153 * mp + 2) / 5 + 1
  let m := if mp < 10 then mp + 3 else mp - 9
  (if m ≤ 2 then y + 1 else y, m, d)

/-- Two-digit zero padding of `strftime`. -/
def pad2 (n : Nat) : String := if n < 10 then "0" ++ toString n else toString n

/-- `datetime.fromtimestamp(t).strftime("%Y-%m-%d")` (src/main.py lines 419-420). -/
def dateStrOfTimestamp (t : Nat) : String :=
  match civilFromDays (t / 86400) with
  | (y, m, d) => toString y ++ "-" ++ pad2 m ++ "-" ++ pad2 d

/-- Due-date suffix of a `/tasks` line (src/main.py lines 397-402). -/
def dueSuffix (t : Task) : String :=
  match t.due_date with
  | none => ""
  | some d =>
    " (Due: " ++ d ++
      (match t.due_time with | none => "" | some tm => " at " ++ tm) ++ ")"

/-- The `/tasks` listing (src/main.py lines 394-404). -/
def formatTasks (tasks : List Task) : String :=
  tasksHeader ++ String.join (tasks.enum.map (fun p =>
    toString (p.1 + 1) ++ ". " ++ (if p.2.completed then statusDone else statusPending) ++
      " " ++ p.2.task ++ dueSuffix p.2 ++ "\n"))

/-- The `/notes` listing (src/main.py lines 417-421). -/
def formatNotes (notes : List Note) : String :=
  notesHeader ++ String.join (notes.enum.map (fun p =>
    toString (p.1 + 1) ++ ". " ++ p.2.content ++ " _" ++
      dateStrOfTimestamp p.2.timestamp ++ "_\n\n"))

/-- Per-file emoji of the `/files` listing (src/main.py line 436). -/
def fileEmoji (f : FileRef) : String :=
  if f.ftype = "documents" then docEmoji
  else if f.ftype = "images" then imgEmoji
  else otherFileEmoji

/-- The `/files` listing (src/main.py lines 434-437). -/
def formatFiles (files : List FileRef) : String :=
  filesHeader ++ String.join (files.enum.map (fun p =>
    toString (p.1 + 1) ++ ". " ++ fileEmoji p.2 ++ " [" ++ p.2.name ++ "](" ++
      p.2.url ++ ")\n"))

/-- The task document built from the extractor output (src/main.py lines 456-463);
`task_info.get("priority", "medium")` reads the priority the extractor set. -/
def mkTaskData (ti : TaskInfo) (now : Nat) : Task :=
  ⟨ti.task, ti.due_date, ti.due_time, ti.priority, false, now⟩

/-- The task-added reply (src/main.py lines 467-474). -/
def taskAddedReply (ti : TaskInfo) : String :=
  let due_str :=
    match ti.due_date with
    | none => ""
    | some d =>
      " for " ++ d ++ (match ti.due_time with | none => "" | some t => " at " ++ t)
  checkEmoji ++ " Task added: " ++ ti.task ++ due_str

/-- The general-conversation branch (src/main.py lines 489-491): the durable
store is not touched, only the session map and the reply change. -/
def conversationFlow (llm : List ChatMsg → Option String) (store : Store)
    (sessions : SessionMap) (uid text : String) (now : Nat) :
    Store × SessionMap × String :=
  match process_conversation llm sessions uid text now with
  | (sessions2, reply) => (store, sessions2, reply)

/-- Intent handling of non-command text (src/main.py lines 442-491).  A failing
`doc_ref.update` (missing document) is caught by the outer catch-all, which
sends the generic error reply (src/main.py lines 606-613). -/
def nonCommandFlow (llm : List ChatMsg → Option String) (store : Store)
    (sessions : SessionMap) (uid text : String) (now : Nat) :
    Store × SessionMap × String :=
  let intent := analyze_intent text
  if intent = "task_create" then
    let ti := extract_task_info text
    if ti.is_task = false then conversationFlow llm store sessions uid text now
    else
      match add_to_user_array store uid
          (fun r => { r with tasks := arrayUnion r.tasks (mkTaskData ti now) }) with
      | some store2 => (store2, sessions, taskAddedReply ti)
      | none => (store, sessions, unexpectedErrorText)
  else if intent = "note_create" then
    match add_to_user_array store uid
        (fun r => { r with notes := arrayUnion r.notes ⟨text, now⟩ }) with
    | some store2 => (store2, sessions, noteSavedText)
    | none => (store, sessions, unexpectedErrorText)
  else conversationFlow llm store sessions uid text now

/-- The text branch of `telegram_webhook` (src/main.py lines 349-491): command
dispatch on the lowercased first token, with unrecognized commands falling
through to intent processing; replies model the text sent to the chat. -/
def handleTextMessage (llm : List ChatMsg → Option String) (store : Store)
    (sessions : SessionMap) (uid text : String) (now : Nat) :
    Store × SessionMap × String :=
  if beginsWith text.toList ['/'] then
    let cmd := String.mk (pyLower (firstToken text.toList))
    if cmd = "/start" then (store, sessions, startText)
    else if cmd = "/help" then (store, sessions, helpText)
    else if cmd = "/tasks" then
      match get_user_data store uid now with
      | (data, store2) =>
        if data.tasks = [] then (store2, sessions, emptyTasksText)
        else (store2, sessions, formatTasks data.tasks)
    else if cmd = "/notes" then
      match get_user_data store uid now with
      | (data, store2) =>
        if data.notes = [] then (store2, sessions, emptyNotesText)
        else (store2, sessions, formatNotes data.notes)
    else if cmd = "/files" then
      match get_user_data store uid now with
      | (data, store2) =>
        if data.files = [] then (store2, sessions, emptyFilesText)
        else (store2, sessions, formatFiles data.files)
    else nonCommandFlow llm store sessions uid text now
  else nonCommandFlow llm store sessions uid text now

/-- One run of the page loop of `process_document` (src/main.py lines 793-816;
the identical loop appears in src/test_pymupdf.py lines 71-108).  Pages are the
raw `page.get_text()` strings and `strip` is applied inside the loop.  Returns
the accumulated text, the final character count and the processed-page count. -/
def pdfPageLoop (max_chars : Nat) : List (List Char) → Nat → List Char × Nat × Nat
  | [], char_count => ([], char_count, 0)
  | p :: ps, char_count =>
    let page_text := stripWs p
    let remaining_chars := max_chars - char_count
    if page_text.length > remaining_chars then
      (page_text.take remaining_chars, char_count + remaining_chars, 1)
    else
      let cc2 := char_count + page_text.length
      if max_chars ≤ cc2 then (page_text ++ ['\n', '\n'], cc2, 1)
      else
        match pdfPageLoop max_chars ps cc2 with
        | (t, c, n) => (page_text ++ '\n' :: '\n' :: t, c, n + 1)

/-- The fields of the `pdf_data` document recorded by `process_document`
(src/main.py lines 782-830). -/
structure PdfExtract where
  text : List Char
  pages_total : Nat
  pages_processed : Nat
  char_count : Nat
  deriving DecidableEq

/-- Extraction result of `process_document` with `max_pages=None`, so the loop
ranges over every page of the document (src/main.py lines 787-793). -/
def process_document_extract (max_chars : Nat) (pages : List (List Char)) : PdfExtract :=
  match pdfPageLoop max_chars pages 0 with
  | (t, c, n) => ⟨t, pages.length, n, c⟩

/-- Modelled from the spec: src/ contains no Periodic Session Reaper, only the
`user_sessions` map it would scan (src/main.py lines 175-176); spec §4.6 gives
its fixed recurrence delay of 600 seconds. -/
def reaperDelaySeconds : Nat := 600

/-- Modelled from the spec: idle threshold of the Session Reaper (spec §4.6). -/
def sessionIdleThreshold : Nat := 1800

/-- Modelled from the spec: the reaper is a single recurring task on a fixed
delay; the k-th run after `start` happens at `start + 600 * k`. -/
def reaperRunTime (start k : Nat) : Nat := start + reaperDelaySeconds * k

/-- Modelled from the spec: tail-of-5 persistence into the durable
`UserRecord.conversation` field on eviction (spec §4.6 and §3). -/
def persistTail (now : Nat) (store : Store) (uid : String) (msgs : List Message) : Store :=
  let r := (dictLookup store uid).getD (defaultUserData now)
  dictInsert store uid { r with conversation := lastN 5 msgs }

/-- Modelled from the spec: one run of the Periodic Session Reaper (spec §4.6):
scan a snapshot of the in-memory sessions, persist the tail of every session
idle for more than `sessionIdleThreshold` seconds and drop it from the map. -/
def reapTick (now : Nat) (store : Store) (sessions : SessionMap) : Store × SessionMap :=
  let idle := fun (p : String × UserSession) =>
    decide (sessionIdleThreshold < now - p.2.last_interaction)
  let evicted := sessions.filter idle
  let kept := sessions.filter (fun p => !idle p)
  (evicted.foldl (fun st p => persistTail now st p.1 p.2.messages) store, kept)

/-! Lemmas about the dictionary and sliding-window primitives. -/

theorem dictLookup_insert_self {α : Type} (l : List (String × α)) (k : String) (v : α) :
    dictLookup (dictInsert l k v) k = some v := by
  induction l with
  | nil => simp [dictInsert, dictLookup]
  | cons p r ih =>
    obtain ⟨k0, v0⟩ := p
    by_cases h : k0 = k
    · simp [dictInsert, dictLookup, h]
    · simp [dictInsert, dictLookup, h, ih]

theorem dictLookup_insert_ne {α : Type} (l : List (String × α)) (k k2 : String) (v : α)
    (h : k2 ≠ k) : dictLookup (dictInsert l k v) k2 = dictLookup l k2 := by
  induction l with
  | nil =>
    simp only [dictInsert, dictLookup]
    rw [if_neg fun hc => h hc.symm]
  | cons p r ih =>
    obtain ⟨k0, v0⟩ := p
    by_cases h0 : k0 = k
    · subst h0
      simp only [dictInsert, if_pos rfl, dictLookup,
        if_neg (show ¬k0 = k2 from fun hc => h hc.symm)]
    · simp only [dictInsert, if_neg h0, dictLookup]
      by_cases h2 : k0 = k2
      · simp [h2]
      · simp [h2, ih]

theorem dictLookup_eq_none {α : Type} (l : List (String × α)) (u : String)
    (h : ∀ p ∈ l, p.1 ≠ u) : dictLookup l u = none := by
  induction l with
  | nil => rfl
  | cons p r ih =>
    obtain ⟨k, v⟩ := p
    have hk : k ≠ u := h (k, v) (List.mem_cons_self _ _)
    simp only [dictLookup, if_neg hk]
    exact ih fun q hq => h q (List.mem_cons_of_mem _ hq)

theorem keyVal_unique {α : Type} {l : List (String × α)} {k : String} {a b : α}
    (hnd : (l.map Prod.fst).Nodup) (ha : (k, a) ∈ l) (hb : (k, b) ∈ l) : a = b := by
  induction l with
  | nil => cases ha
  | cons p r ih =>
    simp only [List.map_cons, List.nodup_cons] at hnd
    rcases List.mem_cons.mp ha with h1 | h1 <;> rcases List.mem_cons.mp hb with h2 | h2
    · exact congrArg Prod.snd (h1.trans h2.symm)
    · have hp1 : p.1 = k := by rw [← h1]
      exact absurd (List.mem_map_of_mem Prod.fst h2) (hp1 ▸ hnd.1)
    · have hp1 : p.1 = k := by rw [← h2]
      exact absurd (List.mem_map_of_mem Prod.fst h1) (hp1 ▸ hnd.1)
    · exact ih hnd.2 h1 h2

theorem length_lastN {α : Type} (n : Nat) (l : List α) :
    (lastN n l).length = min n l.length := by
  simp only [lastN, List.length_drop]
  omega

theorem lastN_of_le {α : Type} (n : Nat) (l : List α) (h : l.length ≤ n) : lastN n l = l := by
  unfold lastN
  rw [Nat.sub_eq_zero_of_le h, List.drop_zero]

theorem mem_drop_append_singleton {α : Type} (a : α) (l : List α) :
    ∀ d, d ≤ l.length → a ∈ (l ++ [a]).drop d := by
  induction l with
  | nil =>
    intro d h
    have : d = 0 := Nat.le_zero.mp h
    simp [this]
  | cons b bs ih =>
    intro d h
    cases d with
    | zero => simp
    | succ d2 =>
      simp only [List.cons_append, List.drop_succ_cons]
      exact ih d2 (by simpa using h)

theorem mem_lastN_append_singleton {α : Type} (n : Nat) (hn : 0 < n) (l : List α) (a : α) :
    a ∈ lastN n (l ++ [a]) := by
  unfold lastN
  apply mem_drop_append_singleton
  simp only [List.length_append, List.length_singleton]
  omega

/-! Lemmas about the respond turn. -/

theorem truncAfterUser_eq_lastN (s : UserSession) (text : String) (now : Nat)
    (h : s.context_window = 10) :
    truncAfterUser s text now = lastN 10 (s.messages ++ [⟨"user", text, now⟩]) := by
  simp only [truncAfterUser, h]
  split_ifs with h1
  · rfl
  · exact (lastN_of_le _ _ (by omega)).symm

theorem respondStep_messages (llm : List ChatMsg → Option String) (s : UserSession)
    (text : String) (now : Nat) (h : s.context_window = 10) :
    (respondStep llm s text now).1.messages =
      (match llm (wireMessages s text now) with
       | some r => lastN 10 (s.messages ++ [⟨"user", text, now⟩]) ++ [⟨"assistant", r, now⟩]
       | none => lastN 10 (s.messages ++ [⟨"user", text, now⟩])) := by
  rcases hllm : llm (wireMessages s text now) with _ | r <;>
    simp [respondStep, hllm, truncAfterUser_eq_lastN s text now h]

theorem process_conversation_lookup (llm : List ChatMsg → Option String)
    (sessions : SessionMap) (uid text : String) (now : Nat) :
    dictLookup (process_conversation llm sessions uid text now).1 uid =
      some (respondStep llm (sessionFor sessions uid now) text now).1 := by
  simp only [process_conversation]
  exact dictLookup_insert_self sessions uid _

/-- Claim C6: the intent classifier is a deterministic function of the text:
any text containing a task-trigger phrase classifies as `task_create` even when
a note-trigger phrase is also present; a note-trigger phrase with no
task-trigger phrase yields `note_create`; everything else defaults to
`general_chat` (src/main.py lines 721-735). -/
theorem C6_intent_precedence (text : String) :
    ((∃ p ∈ taskTriggerPhrases, pyIn p.toList (pyLower text.toList) = true) →
        analyze_intent text = "task_create") ∧
    ((¬ ∃ p ∈ taskTriggerPhrases, pyIn p.toList (pyLower text.toList) = true) →
      (∃ p ∈ noteTriggerPhrases, pyIn p.toList (pyLower text.toList) = true) →
        analyze_intent text = "note_create") ∧
    ((¬ ∃ p ∈ taskTriggerPhrases, pyIn p.toList (pyLower text.toList) = true) →
      (¬ ∃ p ∈ noteTriggerPhrases, pyIn p.toList (pyLower text.toList) = true) →
        analyze_intent text = "general_chat") := by
  refine ⟨fun ht => ?_, fun ht hn => ?_, fun ht hn => ?_⟩ <;>
    simp only [analyze_intent]
  · rw [if_pos (List.any_eq_true.mpr (by simpa using ht))]
  · rw [if_neg (fun hc => ht (by simpa using List.any_eq_true.mp hc)),
      if_pos (List.any_eq_true.mpr (by simpa using hn))]
  · rw [if_neg (fun hc => ht (by simpa using List.any_eq_true.mp hc)),
      if_neg (fun hc => hn (by simpa using List.any_eq_true.mp hc))]

/-- Witness for C6 at concrete inputs: a text with both a task and a note
trigger yields `task_create`; a note-only text yields `note_create`; a plain
text yields `general_chat`. -/
theorem C6_intent_precedence_witness :
    analyze_intent "Remind me to buy milk and save this note" = "task_create" ∧
    analyze_intent "please save this note" = "note_create" ∧
    analyze_intent "hello there" = "general_chat" :=
  ⟨(C6_intent_precedence "Remind me to buy milk and save this note").1 (by decide),
   (C6_intent_precedence "please save this note").2.1 (by decide) (by decide),
   (C6_intent_precedence "hello there").2.2 (by decide) (by decide)⟩

/-- Claim C8: when the completion-provider call raises, `process_conversation`
returns the fixed apologetic string to its caller instead of propagating the
failure (src/main.py lines 699-719). -/
theorem C8_apology_on_failure (llm : List ChatMsg → Option String) (sessions : SessionMap)
    (uid text : String) (now : Nat)
    (hfail : llm (wireMessages (sessionFor sessions uid now) text now) = none) :
    (process_conversation llm sessions uid text now).2 = apologyText := by
  simp [process_conversation, respondStep, hfail]

/-- Witness for C8: a provider whose call always raises, a fresh user. -/
theorem C8_apology_on_failure_witness :
    (process_conversation llmFail [] "u" "hello" 0).2 = apologyText :=
  C8_apology_on_failure llmFail [] "u" "hello" 0 rfl

/-- Claim C10: when the completion-provider call fails, the session stored in
the map keeps the appended user message (after the sliding-window truncation)
and the updated `last_interaction`; only the assistant-reply append is skipped,
so the unanswered message stays in the context of the next turn
(src/main.py lines 677-686 and 717-719). -/
theorem C10_no_rollback_on_failure (llm : List ChatMsg → Option String)
    (sessions : SessionMap) (uid text : String) (now : Nat)
    (h10 : (sessionFor sessions uid now).context_window = 10)
    (hfail : llm (wireMessages (sessionFor sessions uid now) text now) = none) :
    dictLookup (process_conversation llm sessions uid text now).1 uid =
      some { sessionFor sessions uid now with
             messages := lastN 10 ((sessionFor sessions uid now).messages ++
               [⟨"user", text, now⟩]),
             last_interaction := now } ∧
    (⟨"user", text, now⟩ : Message) ∈
      lastN 10 ((sessionFor sessions uid now).messages ++ [⟨"user", text, now⟩]) ∧
    (process_conversation llm sessions uid text now).2 = apologyText := by
  refine ⟨?_, mem_lastN_append_singleton 10 (by omega) _ _, ?_⟩
  · rw [process_conversation_lookup]
    simp [respondStep, hfail, truncAfterUser_eq_lastN _ _ _ h10]
  · simp [process_conversation, respondStep, hfail]

/-- Witness for C10: failing provider, one stored session at the cap. -/
theorem C10_no_rollback_on_failure_witness :
    dictLookup (process_conversation llmFail [] "u" "hi" 7).1 "u" =
      some { sessionFor [] "u" 7 with
             messages := lastN 10 ((sessionFor [] "u" 7).messages ++ [⟨"user", "hi", 7⟩]),
             last_interaction := 7 } ∧
    (⟨"user", "hi", 7⟩ : Message) ∈
      lastN 10 ((sessionFor [] "u" 7).messages ++ [⟨"user", "hi", 7⟩]) ∧
    (process_conversation llmFail [] "u" "hi" 7).2 = apologyText :=
  C10_no_rollback_on_failure llmFail [] "u" "hi" 7 rfl rfl

/-- Claim C1 (amended): after a respond call the stored session buffer holds at
most 11 messages: the cap-10 sliding window (oldest dropped first) is applied
on the user-message append only, and on success the assistant reply is then
appended without re-truncation; the buffer always holds the most recent
messages in arrival order (src/main.py lines 680-714). -/
theorem C1_window_cap_amended (llm : List ChatMsg → Option String) (sessions : SessionMap)
    (uid text : String) (now : Nat)
    (h10 : (sessionFor sessions uid now).context_window = 10) :
    dictLookup (process_conversation llm sessions uid text now).1 uid =
      some (respondStep llm (sessionFor sessions uid now) text now).1 ∧
    (respondStep llm (sessionFor sessions uid now) text now).1.messages.length ≤ 11 ∧
    (respondStep llm (sessionFor sessions uid now) text now).1.messages =
      (match llm (wireMessages (sessionFor sessions uid now) text now) with
       | some r =>
         lastN 10 ((sessionFor sessions uid now).messages ++ [⟨"user", text, now⟩]) ++
           [⟨"assistant", r, now⟩]
       | none =>
         lastN 10 ((sessionFor sessions uid now).messages ++ [⟨"user", text, now⟩])) := by
  refine ⟨process_conversation_lookup llm sessions uid text now, ?_,
    respondStep_messages llm _ text now h10⟩
  rw [respondStep_messages llm _ text now h10]
  rcases hllm : llm (wireMessages (sessionFor sessions uid now) text now) with _ | r <;>
    simp only [hllm, List.length_append, length_lastN, List.length_singleton] <;>
    omega

/-- Witness for C1 (amended) at a fresh user and a succeeding provider. -/
theorem C1_window_cap_amended_witness :
    dictLookup (process_conversation (llmConst "hi") [] "u" "x" 3).1 "u" =
      some (respondStep (llmConst "hi") (sessionFor [] "u" 3) "x" 3).1 ∧
    (respondStep (llmConst "hi") (sessionFor [] "u" 3) "x" 3).1.messages.length ≤ 11 ∧
    (respondStep (llmConst "hi") (sessionFor [] "u" 3) "x" 3).1.messages =
      (match llmConst "hi" (wireMessages (sessionFor [] "u" 3) "x" 3) with
       | some r =>
         lastN 10 ((sessionFor [] "u" 3).messages ++ [⟨"user", "x", 3⟩]) ++
           [⟨"assistant", r, 3⟩]
       | none => lastN 10 ((sessionFor [] "u" 3).messages ++ [⟨"user", "x", 3⟩])) :=
  C1_window_cap_amended (llmConst "hi") [] "u" "x" 3 rfl

/-- Counterexample to C1 as stated: after six successful turns of one user the
in-memory buffer holds 11 messages, exceeding the claimed cap of 10 — the
assistant-reply append is not followed by the truncation. -/
theorem C1_counterexample :
    ((dictLookup (runTurns (llmConst "ok") [] "u" ["a", "b", "c", "d", "e", "f"] 0) "u").map
        (fun s => s.messages.length) = some 11) ∧
    ¬(11 ≤ 10) := by decide

/-- Claim C2 is contradicted by the code: `UserSession.__init__` always creates
an empty buffer and `process_conversation` never reads the persisted
conversation tail, so a user with one persisted tail message gets a session
seeded with nothing — after the first turn the buffer holds only the new
exchange (src/main.py lines 168-176 and 673-677). -/
theorem C2_no_rehydration :
    (UserSession.init "u" 50).messages = [] ∧
    ((dictLookup (handleTextMessage (llmConst "hi")
          [("u", { defaultUserData 0 with conversation := [⟨"assistant", "old", 0⟩] })]
          [] "u" "hello" 50).2.1 "u").map (fun s => s.messages) =
      some [⟨"user", "hello", 50⟩, ⟨"assistant", "hi", 50⟩]) ∧
    (⟨"assistant", "old", 0⟩ : Message) ∉
      [(⟨"user", "hello", 50⟩ : Message), ⟨"assistant", "hi", 50⟩] := by
  decide

/-- Claim C3 is contradicted by the code: a completed conversational turn
performs no write to the durable store, so the record keeps its old
conversation field while the in-memory tail of 5 differs from it
(src/main.py lines 671-719 contain no persistence call). -/
theorem C3_no_persistence :
    (handleTextMessage (llmConst "hi") [("u", defaultUserData 0)] [] "u" "hello" 50).1 =
      [("u", defaultUserData 0)] ∧
    ((dictLookup (handleTextMessage (llmConst "hi") [("u", defaultUserData 0)] [] "u"
          "hello" 50).2.1 "u").map (fun s => lastN 5 s.messages) =
      some [⟨"user", "hello", 50⟩, ⟨"assistant", "hi", 50⟩]) ∧
    some [(⟨"user", "hello", 50⟩ : Message), ⟨"assistant", "hi", 50⟩] ≠
      some (defaultUserData 0).conversation := by
  decide

/-! Lemmas about the PDF page loop. -/

theorem pdfPageLoop_exhaust (max_chars : Nat) :
    ∀ (pages : List (List Char)) (cc : Nat), cc ≤ max_chars →
      max_chars < cc + (pages.map (fun p => (stripWs p).length)).sum →
      (pdfPageLoop max_chars pages cc).2.1 = max_chars ∧
      (pdfPageLoop max_chars pages cc).2.2 ≤ pages.length ∧
      max_chars ≤ cc + (pdfPageLoop max_chars pages cc).1.length := by
  intro pages
  induction pages with
  | nil =>
    intro cc h1 h2
    simp only [List.map_nil, List.sum_nil] at h2
    omega
  | cons p ps ih =>
    intro cc h1 h2
    simp only [List.map_cons, List.sum_cons] at h2
    simp only [pdfPageLoop]
    split_ifs with hl1 hl2
    · refine ⟨by dsimp only; omega, by dsimp only; simp, ?_⟩
      dsimp only
      simp only [List.length_take]
      omega
    · refine ⟨by dsimp only; omega, by dsimp only; simp, ?_⟩
      dsimp only
      simp only [List.length_append, List.length_cons, List.length_nil]
      omega
    · have ihh := ih (cc + (stripWs p).length) (by omega) (by omega)
      rcases hP : pdfPageLoop max_chars ps (cc + (stripWs p).length) with ⟨t, c, n⟩
      rw [hP] at ihh
      simp only [hP]
      dsimp only at ihh ⊢
      refine ⟨ihh.1, by simpa using Nat.succ_le_succ ihh.2.1, ?_⟩
      simp only [List.length_append, List.length_cons]
      have := ihh.2.2
      omega

/-- Claim C7 (amended): when the concatenated (stripped) page text exceeds
`max_chars`, extraction stops once the budget is exhausted, truncating the
final included page: the recorded `char_count` equals exactly `max_chars` and
`pages_processed ≤ pages_total` (equality is possible when the budget runs out
on the final page); the accumulated text itself is at least `max_chars` long,
exceeding it by the two-newline separators of fully included pages
(src/main.py lines 782-830). -/
theorem C7_pdf_budget_amended (max_chars : Nat) (pages : List (List Char))
    (hsum : max_chars < (pages.map (fun p => (stripWs p).length)).sum) :
    (process_document_extract max_chars pages).char_count = max_chars ∧
    (process_document_extract max_chars pages).pages_processed ≤
      (process_document_extract max_chars pages).pages_total ∧
    max_chars ≤ (process_document_extract max_chars pages).text.length := by
  have h := pdfPageLoop_exhaust max_chars pages 0 (Nat.zero_le _) (by simpa using hsum)
  rcases hP : pdfPageLoop max_chars pages 0 with ⟨t, c, n⟩
  rw [hP] at h
  simp only [process_document_extract, hP]
  exact ⟨h.1, h.2.1, by simpa using h.2.2⟩

/-- Witness for C7 (amended): three 3-character pages against a budget of 5:
the loop stops inside page 2, recording `char_count = 5` and 2 of 3 pages. -/
theorem C7_pdf_budget_amended_witness :
    (process_document_extract 5 [['a', 'b', 'c'], ['d', 'e', 'f'], ['x', 'y', 'z']]).char_count
        = 5 ∧
    (process_document_extract 5 [['a', 'b', 'c'], ['d', 'e', 'f'], ['x', 'y', 'z']]).pages_processed ≤
      (process_document_extract 5 [['a', 'b', 'c'], ['d', 'e', 'f'], ['x', 'y', 'z']]).pages_total ∧
    5 ≤ (process_document_extract 5 [['a', 'b', 'c'], ['d', 'e', 'f'], ['x', 'y', 'z']]).text.length :=
  C7_pdf_budget_amended 5 [['a', 'b', 'c'], ['d', 'e', 'f'], ['x', 'y', 'z']] (by decide)

/-- Counterexample to C7 as stated: a two-page document of stripped lengths 3
and 6 against a budget of 8 exceeds the budget, yet the loop truncates inside
the final page, so `pages_processed = pages_total = 2` (not `<`), and the
extracted text is 10 characters long (page separator included), not 8. -/
theorem C7_counterexample :
    8 < (([['a', 'b', 'c'], ['d', 'e', 'f', 'g', 'h', 'i']].map
        (fun p => (stripWs p).length)).sum) ∧
    (process_document_extract 8 [['a', 'b', 'c'], ['d', 'e', 'f', 'g', 'h', 'i']]).pages_processed =
      (process_document_extract 8 [['a', 'b', 'c'], ['d', 'e', 'f', 'g', 'h', 'i']]).pages_total ∧
    ¬((process_document_extract 8 [['a', 'b', 'c'], ['d', 'e', 'f', 'g', 'h', 'i']]).pages_processed <
      (process_document_extract 8 [['a', 'b', 'c'], ['d', 'e', 'f', 'g', 'h', 'i']]).pages_total) ∧
    (process_document_extract 8 [['a', 'b', 'c'], ['d', 'e', 'f', 'g', 'h', 'i']]).text.length = 10 ∧
    (10 : Nat) ≠ 8 := by
  decide

/-! Lemmas about the modelled reaper persistence fold. -/

theorem persistTail_lookup_self (now : Nat) (st : Store) (uid : String) (msgs : List Message) :
    ∃ r : UserRecord, dictLookup (persistTail now st uid msgs) uid = some r ∧
      r.conversation = lastN 5 msgs := by
  refine ⟨{ (dictLookup st uid).getD (defaultUserData now) with conversation := lastN 5 msgs },
    ?_, rfl⟩
  simp only [persistTail]
  exact dictLookup_insert_self _ _ _

theorem persistTail_lookup_ne (now : Nat) (st : Store) (k uid : String) (msgs : List Message)
    (h : uid ≠ k) : dictLookup (persistTail now st k msgs) uid = dictLookup st uid := by
  simp only [persistTail]
  exact dictLookup_insert_ne _ _ _ _ h

theorem persistFold_lookup_notmem (now : Nat) (uid : String) :
    ∀ (l : List (String × UserSession)) (st : Store), uid ∉ l.map Prod.fst →
      dictLookup (l.foldl (fun st2 p => persistTail now st2 p.1 p.2.messages) st) uid =
        dictLookup st uid := by
  intro l
  induction l with
  | nil => intro st _; rfl
  | cons p r ih =>
    intro st h
    simp only [List.map_cons, List.mem_cons, not_or] at h
    rw [List.foldl_cons, ih _ h.2, persistTail_lookup_ne now st p.1 uid p.2.messages h.1]

theorem persistFold_lookup_mem (now : Nat) (uid : String) (s : UserSession) :
    ∀ (l : List (String × UserSession)) (st : Store),
      (l.map Prod.fst).Nodup → (uid, s) ∈ l →
      ∃ r : UserRecord,
        dictLookup (l.foldl (fun st2 p => persistTail now st2 p.1 p.2.messages) st) uid
          = some r ∧ r.conversation = lastN 5 s.messages := by
  intro l
  induction l with
  | nil => intro st _ hm; cases hm
  | cons p r ih =>
    intro st hnd hm
    simp only [List.map_cons, List.nodup_cons] at hnd
    rw [List.foldl_cons]
    rcases List.mem_cons.mp hm with h1 | h1
    · have hp1 : p.1 = uid := by rw [← h1]
      have hnot : uid ∉ r.map Prod.fst := hp1 ▸ hnd.1
      rw [persistFold_lookup_notmem now uid r _ hnot]
      have hp2 : p.2 = s := by rw [← h1]
      rw [hp1, hp2]
      exact persistTail_lookup_self now st uid s.messages
    · have hp1 : p.1 ≠ uid := by
        intro hc
        have huid : uid ∈ r.map Prod.fst := List.mem_map_of_mem Prod.fst h1
        rw [hc] at hnd
        exact hnd.1 huid
      exact ih _ hnd.2 h1

/-- Claim C4 (modelled from the spec, §4.6): the reaper is a recurring task
with a fixed 600-second delay; on a tick, every in-memory session idle for
more than 1800 seconds is removed from the session map and its tail of 5
messages is persisted into the durable record before removal. -/
theorem C4_reaper_eviction (now start k : Nat) (store : Store) (sessions : SessionMap)
    (uid : String) (s : UserSession)
    (hnd : (sessions.map Prod.fst).Nodup) (hmem : (uid, s) ∈ sessions)
    (hidle : sessionIdleThreshold < now - s.last_interaction) :
    reaperDelaySeconds = 600 ∧ sessionIdleThreshold = 1800 ∧
    reaperRunTime start (k + 1) - reaperRunTime start k = reaperDelaySeconds ∧
    dictLookup (reapTick now store sessions).2 uid = none ∧
    ∃ r : UserRecord, dictLookup (reapTick now store sessions).1 uid = some r ∧
      r.conversation = lastN 5 s.messages := by
  refine ⟨rfl, rfl, ?_, ?_, ?_⟩
  · simp only [reaperRunTime, reaperDelaySeconds]
    omega
  · simp only [reapTick]
    apply dictLookup_eq_none
    intro p hp hpeq
    obtain ⟨hmem2, hcond⟩ := List.mem_filter.mp hp
    have hmem3 : (uid, p.2) ∈ sessions := by
      rw [← hpeq]
      exact hmem2
    have hps : p.2 = s := keyVal_unique hnd hmem3 hmem
    rw [hps] at hcond
    simp only [Bool.not_eq_true', decide_eq_false_iff_not, Nat.not_lt] at hcond
    omega
  · simp only [reapTick]
    apply persistFold_lookup_mem now uid s
    · exact List.Nodup.sublist ((List.filter_sublist sessions).map Prod.fst) hnd
    · exact List.mem_filter.mpr ⟨hmem, by simpa using hidle⟩

/-- Witness for C4: one session idle since time 0, reaped at time 2000. -/
theorem C4_reaper_eviction_witness :
    reaperDelaySeconds = 600 ∧ sessionIdleThreshold = 1800 ∧
    reaperRunTime 0 (0 + 1) - reaperRunTime 0 0 = reaperDelaySeconds ∧
    dictLookup (reapTick 2000 [] [("u", ⟨"u", [⟨"user", "m", 0⟩], 0, 10⟩)]).2 "u" = none ∧
    ∃ r : UserRecord,
      dictLookup (reapTick 2000 [] [("u", ⟨"u", [⟨"user", "m", 0⟩], 0, 10⟩)]).1 "u" = some r ∧
      r.conversation = lastN 5 [⟨"user", "m", 0⟩] :=
  C4_reaper_eviction 2000 0 0 [] [("u", ⟨"u", [⟨"user", "m", 0⟩], 0, 10⟩)] "u"
    ⟨"u", [⟨"user", "m", 0⟩], 0, 10⟩ (by decide) (by decide) (by decide)

/-! Lemmas for the task-creation path of the webhook text branch. -/

theorem nonCommandFlow_task (llm : List ChatMsg → Option String) (store : Store)
    (sessions : SessionMap) (uid text : String) (now : Nat) (rec : UserRecord)
    (hintent : analyze_intent text = "task_create")
    (hti : (extract_task_info text).is_task = true)
    (hrec : dictLookup store uid = some rec)
    (hnew : mkTaskData (extract_task_info text) now ∉ rec.tasks) :
    nonCommandFlow llm store sessions uid text now =
      (dictInsert store uid
        { rec with tasks := rec.tasks ++ [mkTaskData (extract_task_info text) now] },
       sessions, taskAddedReply (extract_task_info text)) := by
  unfold nonCommandFlow
  rw [hintent, if_pos rfl,
    if_neg (fun hc => by rw [hti] at hc; exact Bool.noConfusion hc)]
  simp only [add_to_user_array, hrec, arrayUnion, if_neg hnew]

/-- Claim C5 (amended): the inbound text "Remind me to call mom tomorrow at
5pm" appends exactly one task with `due_date="tomorrow"`, `priority="medium"`,
`completed=false` and the reply contains "Task added" — but `due_time` is
`None`, not "5pm": the time regex `\d{1,2} (am|pm)` requires a space before
am/pm, which "5pm" lacks (src/main.py lines 443-476 and 737-769). -/
theorem C5_task_creation_amended (llm : List ChatMsg → Option String) (store : Store)
    (sessions : SessionMap) (uid : String) (rec : UserRecord) (now : Nat)
    (hrec : dictLookup store uid = some rec)
    (hnew : (⟨"call mom tomorrow at 5pm", some "tomorrow", none, "medium", false, now⟩ : Task)
      ∉ rec.tasks) :
    (handleTextMessage llm store sessions uid "Remind me to call mom tomorrow at 5pm" now).1 =
      dictInsert store uid { rec with tasks := rec.tasks ++
        [⟨"call mom tomorrow at 5pm", some "tomorrow", none, "medium", false, now⟩] } ∧
    (handleTextMessage llm store sessions uid
      "Remind me to call mom tomorrow at 5pm" now).2.1 = sessions ∧
    pyIn "Task added".toList
      (handleTextMessage llm store sessions uid
        "Remind me to call mom tomorrow at 5pm" now).2.2.toList = true := by
  have h1 : handleTextMessage llm store sessions uid
      "Remind me to call mom tomorrow at 5pm" now =
      nonCommandFlow llm store sessions uid "Remind me to call mom tomorrow at 5pm" now := rfl
  have h2 := nonCommandFlow_task llm store sessions uid
    "Remind me to call mom tomorrow at 5pm" now rec (by decide) (by decide) hrec hnew
  rw [h1, h2]
  refine ⟨rfl, rfl, ?_⟩
  show pyIn "Task added".toList
    (taskAddedReply (extract_task_info "Remind me to call mom tomorrow at 5pm")).toList = true
  decide

/-- Witness for C5 (amended): a user with an existing empty record. -/
theorem C5_task_creation_amended_witness :
    (handleTextMessage (llmConst "ok") [("7", defaultUserData 0)] [] "7"
      "Remind me to call mom tomorrow at 5pm" 100).1 =
      dictInsert [("7", defaultUserData 0)] "7" { defaultUserData 0 with tasks :=
        (defaultUserData 0).tasks ++
          [⟨"call mom tomorrow at 5pm", some "tomorrow", none, "medium", false, 100⟩] } ∧
    (handleTextMessage (llmConst "ok") [("7", defaultUserData 0)] [] "7"
      "Remind me to call mom tomorrow at 5pm" 100).2.1 = [] ∧
    pyIn "Task added".toList
      (handleTextMessage (llmConst "ok") [("7", defaultUserData 0)] [] "7"
        "Remind me to call mom tomorrow at 5pm" 100).2.2.toList = true :=
  C5_task_creation_amended (llmConst "ok") [("7", defaultUserData 0)] [] "7"
    (defaultUserData 0) 100 rfl (by decide)

/-- Counterexample to C5 as stated: at the claimed input the single appended
task has `due_time = None`, not "5pm". -/
theorem C5_counterexample :
    ((dictLookup (handleTextMessage (llmConst "ok") [("7", defaultUserData 0)] [] "7"
        "Remind me to call mom tomorrow at 5pm" 100).1 "7").map
      (fun r => r.tasks.map Task.due_time) = some [none]) ∧
    (none : Option String) ≠ some "5pm" := by
  decide

/-- Claim C9 (amended): for a user whose durable record already exists, the
five command handlers are pure read-and-format operations — the store and the
session map are unchanged — and `/tasks` with zero stored tasks replies with
exactly the empty-state message.  (The lazy creation of a missing record by
`get_user_data` is the one write excluded by the amendment.) -/
theorem C9_commands_read_only (llm : List ChatMsg → Option String) (store : Store)
    (sessions : SessionMap) (uid : String) (rec : UserRecord) (now : Nat)
    (hrec : dictLookup store uid = some rec) :
    ((handleTextMessage llm store sessions uid "/start" now).1 = store ∧
     (handleTextMessage llm store sessions uid "/start" now).2.1 = sessions) ∧
    ((handleTextMessage llm store sessions uid "/help" now).1 = store ∧
     (handleTextMessage llm store sessions uid "/help" now).2.1 = sessions) ∧
    ((handleTextMessage llm store sessions uid "/tasks" now).1 = store ∧
     (handleTextMessage llm store sessions uid "/tasks" now).2.1 = sessions) ∧
    ((handleTextMessage llm store sessions uid "/notes" now).1 = store ∧
     (handleTextMessage llm store sessions uid "/notes" now).2.1 = sessions) ∧
    ((handleTextMessage llm store sessions uid "/files" now).1 = store ∧
     (handleTextMessage llm store sessions uid "/files" now).2.1 = sessions) ∧
    (rec.tasks = [] →
      (handleTextMessage llm store sessions uid "/tasks" now).2.2 = emptyTasksText) := by
  have hget : get_user_data store uid now = (rec, store) := by
    simp [get_user_data, hrec]
  have htasks : handleTextMessage llm store sessions uid "/tasks" now =
      (store, sessions, if rec.tasks = [] then emptyTasksText else formatTasks rec.tasks) := by
    show (match get_user_data store uid now with
      | (data, store2) =>
        if data.tasks = [] then (store2, sessions, emptyTasksText)
        else (store2, sessions, formatTasks data.tasks)) = _
    rw [hget]
    by_cases h : rec.tasks = [] <;> simp [h]
  have hnotes : handleTextMessage llm store sessions uid "/notes" now =
      (store, sessions, if rec.notes = [] then emptyNotesText else formatNotes rec.notes) := by
    show (match get_user_data store uid now with
      | (data, store2) =>
        if data.notes = [] then (store2, sessions, emptyNotesText)
        else (store2, sessions, formatNotes data.notes)) = _
    rw [hget]
    by_cases h : rec.notes = [] <;> simp [h]
  have hfiles : handleTextMessage llm store sessions uid "/files" now =
      (store, sessions, if rec.files = [] then emptyFilesText else formatFiles rec.files) := by
    show (match get_user_data store uid now with
      | (data, store2) =>
        if data.files = [] then (store2, sessions, emptyFilesText)
        else (store2, sessions, formatFiles data.files)) = _
    rw [hget]
    by_cases h : rec.files = [] <;> simp [h]
  refine ⟨⟨rfl, rfl⟩, ⟨rfl, rfl⟩, ⟨?_, ?_⟩, ⟨?_, ?_⟩, ⟨?_, ?_⟩, ?_⟩
  · rw [htasks]
  · rw [htasks]
  · rw [hnotes]
  · rw [hnotes]
  · rw [hfiles]
  · rw [hfiles]
  · intro h
    rw [htasks]
    simp [h]

/-- Witness for C9 (amended): a user with an existing empty record. -/
theorem C9_commands_read_only_witness :
    ((handleTextMessage (llmConst "ok") [("7", defaultUserData 0)] [] "7" "/start" 9).1 =
        [("7", defaultUserData 0)] ∧
     (handleTextMessage (llmConst "ok") [("7", defaultUserData 0)] [] "7" "/start" 9).2.1 = []) ∧
    ((handleTextMessage (llmConst "ok") [("7", defaultUserData 0)] [] "7" "/help" 9).1 =
        [("7", defaultUserData 0)] ∧
     (handleTextMessage (llmConst "ok") [("7", defaultUserData 0)] [] "7" "/help" 9).2.1 = []) ∧
    ((handleTextMessage (llmConst "ok") [("7", defaultUserData 0)] [] "7" "/tasks" 9).1 =
        [("7", defaultUserData 0)] ∧
     (handleTextMessage (llmConst "ok") [("7", defaultUserData 0)] [] "7" "/tasks" 9).2.1 = []) ∧
    ((handleTextMessage (llmConst "ok") [("7", defaultUserData 0)] [] "7" "/notes" 9).1 =
        [("7", defaultUserData 0)] ∧
     (handleTextMessage (llmConst "ok") [("7", defaultUserData 0)] [] "7" "/notes" 9).2.1 = []) ∧
    ((handleTextMessage (llmConst "ok") [("7", defaultUserData 0)] [] "7" "/files" 9).1 =
        [("7", defaultUserData 0)] ∧
     (handleTextMessage (llmConst "ok") [("7", defaultUserData 0)] [] "7" "/files" 9).2.1 = []) ∧
    ((defaultUserData 0).tasks = [] →
      (handleTextMessage (llmConst "ok") [("7", defaultUserData 0)] [] "7" "/tasks" 9).2.2 =
        emptyTasksText) :=
  C9_commands_read_only (llmConst "ok") [("7", defaultUserData 0)] [] "7"
    (defaultUserData 0) 9 rfl

/-- Counterexample to C9 as stated: `/tasks` from a user with no stored record
(zero stored tasks) does reply with the empty-state message, but it mutates
stored user data: `get_user_data` lazily creates and writes the default record
(src/main.py lines 184-194). -/
theorem C9_counterexample :
    (handleTextMessage (llmConst "ok") [] [] "7" "/tasks" 5).2.2 = emptyTasksText ∧
    (handleTextMessage (llmConst "ok") [] [] "7" "/tasks" 5).1 = [("7", defaultUserData 5)] ∧
    ([("7", defaultUserData 5)] : Store) ≠ [] := by
  decide

end Telemind
